import Mathlib

/-!
Verification development for the MBTA tweet-scraping pipeline
(src/tweets/parse_scraped_tweets.py).

The Python source is shallowly embedded below.  Python strings are Lean
strings, manipulated through their character lists so that every definition
is structurally recursive and computable; Python exceptions are the
constructors of PyError, and fallible code returns Except PyError.
The per-record loop of tweet_jsons_to_csv is runLoop, threading the mutable
state of the Python loop (row accumulator, media mapping, error counter, and
the printed diagnostics) explicitly, and the pandas post-pass (lines 182-197
of the source) is postPass.
-/

namespace ParseScrapedTweets

/-- The character list of a string (Python strings are sequences of characters). -/
def chars (s : String) : List Char := s.data

/-- Python str.split(c) for a one-character separator: the list of segments
between occurrences of c, with empty segments kept, never empty as a list. -/
def splitOnChar (c : Char) : List Char → List (List Char)
  | [] => [[]]
  | x :: xs =>
    match splitOnChar c xs with
    | [] => [[]]
    | seg :: segs => if x = c then [] :: seg :: segs else (x :: seg) :: segs

/-- Python indexing [-1] on the (always nonempty) result of str.split. -/
def pyLast : List (List Char) → List Char
  | [] => []
  | [x] => x
  | _ :: xs => pyLast xs

/-- Python indexing [0] on the (always nonempty) result of str.split. -/
def pyHead : List (List Char) → List Char
  | [] => []
  | x :: _ => x

/-- Python str.startswith. -/
def pyStartswith (s pre : String) : Bool := (chars pre).isPrefixOf (chars s)

/-- Python str.replace of one character by another; used for
tweet_text.replace of a newline by a space (source line 147). -/
def pyReplaceChar (a b : Char) (s : String) : String :=
  String.mk ((chars s).map (fun c => if c = a then b else c))

/-- Value of a decimal digit character. -/
def digitVal (c : Char) : Option Nat :=
  if c.isDigit then some (c.toNat - 48) else none

/-- Python int(s) on the nonempty all-digit strings used as status ids;
none models the ValueError raised on anything else.  (Python int() also
accepts signs and surrounding whitespace; the ids in this data are plain
decimal digit strings, which is the case the program relies on.) -/
def pyIntChars : List Char → Option Nat
  | [] => none
  | l =>
    l.foldl (fun acc c => acc.bind (fun n => (digitVal c).map (fun d => n * 10 + d)))
      (some 0)

/-- Python int() on a string, see pyIntChars. -/
def pyInt (s : String) : Option Nat := pyIntChars (chars s)

/-- The Python exceptions this program can raise. -/
inductive PyError where
  /-- KeyError k: a dictionary was subscripted with an absent key k
  (also raised by pandas for a missing DataFrame column). -/
  | keyError (key : String)
  /-- The ValueError raised by image_or_video_id_from_url; it prints the
  offending url as a diagnostic, recorded here in the constructor. -/
  | invalidUrl (url : String)
  /-- ValueError from other library calls (int() on a non-numeric string,
  pd.to_datetime on a malformed timestamp). -/
  | valueError (msg : String)
  /-- TypeError from Series.astype on an inconvertible column. -/
  | typeError (msg : String)
deriving DecidableEq, Repr

/-- The image-hosting URL prefix recognized by the classifier (line 57). -/
def mediaHost : String := "https://pbs.twimg.com/media/"

/-- First video-hosting URL prefix recognized by the classifier (line 59). -/
def videoHost1 : String := "https://video.twimg.com/amplify_video/"

/-- Second video-hosting URL prefix recognized by the classifier (line 59). -/
def videoHost2 : String := "https://video.twimg.com/ext_tw_video/"

/-- Source lines 39-67.  For an image URL: url.split(slash)[-1].split(qmark)[0];
for a video URL the url itself; otherwise print the url and raise ValueError.
The try/except re-raises the very same ValueError (nothing else in the body
can raise), so every failure is the invalidUrl error carrying the url. -/
def image_or_video_id_from_url (url : String) : Except PyError String :=
  if pyStartswith url mediaHost then
    .ok (String.mk (pyHead (splitOnChar '?' (pyLast (splitOnChar '/' (chars url))))))
  else if pyStartswith url videoHost1 || pyStartswith url videoHost2 then
    .ok url
  else
    .error (.invalidUrl url)

/-- A media_details entry: a JSON object with string values, as a key-value list. -/
abbrev MediaEntry := List (String × String)

/-- Python dict subscription d[k]: the value, or KeyError k. -/
def pyLookup (d : List (String × String)) (k : String) : Except PyError String :=
  match d with
  | [] => .error (.keyError k)
  | (k', v) :: rest => if k' = k then .ok v else pyLookup rest k

/-- The otherPropertiesMap sub-object of a tweet record: string-valued
fields, plus the media_details key whose value is a list of entries
(absent when the scrape recorded none). -/
structure OtherProps where
  strFields : List (String × String)
  media_details : Option (List MediaEntry) := none
deriving DecidableEq, Repr

/-- A parsed tweet record blob; only the otherPropertiesMap key is consumed
by the program, and it may be absent. -/
structure Tweet where
  otherPropertiesMap : Option OtherProps
deriving DecidableEq, Repr

/-- The tweet_data dictionary built on source lines 144-156: the seven
always-extracted fields, plus the two target fields when the record is a
quoted tweet or a reply. -/
structure TweetData where
  tweet_id : String
  created_at : String
  tweet_text : String
  tweet_url : String
  is_quoted_tweet : String
  is_reply_tweet : String
  has_media : String
  target_tweet_id : Option String := none
  target_tweet_url : Option String := none
deriving DecidableEq, Repr

/-- One value of the media mapping: image ids and video urls, in order. -/
structure MediaDict where
  image_ids : List String
  video_urls : List String
deriving DecidableEq, Repr

/-- Source line 69. -/
def EMPTY_MEDIA_DICT : MediaDict := { image_ids := [], video_urls := [] }

/-- The tweet_media_mapping dictionary: integer tweet id to MediaDict. -/
abbrev Mapping := List (Nat × MediaDict)

/-- Python dict assignment m[k] = v (overwrites, keeps key order). -/
def mapInsert (m : Mapping) (k : Nat) (v : MediaDict) : Mapping :=
  match m with
  | [] => [(k, v)]
  | (k', v') :: rest => if k' = k then (k, v) :: rest else (k', v') :: mapInsert rest k v

/-- Python dict read m.get(k). -/
def mapFind (m : Mapping) (k : Nat) : Option MediaDict :=
  match m with
  | [] => none
  | (k', v) :: rest => if k' = k then some v else mapFind rest k

/-- Source lines 144-156: extraction of the scalar fields of one record, in
the evaluation order of the Python dict literal, then the conditional
target fields.  The first absent key raises KeyError. -/
def tweetDataOf (props : OtherProps) : Except PyError TweetData :=
  match pyLookup props.strFields "status_id" with
  | .error e => .error e
  | .ok sid =>
  match pyLookup props.strFields "created_at" with
  | .error e => .error e
  | .ok created =>
  match pyLookup props.strFields "tweet_text" with
  | .error e => .error e
  | .ok text =>
  match pyLookup props.strFields "full_url" with
  | .error e => .error e
  | .ok furl =>
  match pyLookup props.strFields "is_quoted_tweet" with
  | .error e => .error e
  | .ok quoted =>
  match pyLookup props.strFields "is_reply_tweet" with
  | .error e => .error e
  | .ok reply =>
  match pyLookup props.strFields "has_media" with
  | .error e => .error e
  | .ok hm =>
  if quoted = "true" ∨ reply = "true" then
    match pyLookup props.strFields "target_tweet_id" with
    | .error e => .error e
    | .ok tid =>
    match pyLookup props.strFields "target_tweet_url" with
    | .error e => .error e
    | .ok turl =>
      .ok { tweet_id := sid, created_at := created,
            tweet_text := pyReplaceChar '\n' ' ' text, tweet_url := furl,
            is_quoted_tweet := quoted, is_reply_tweet := reply, has_media := hm,
            target_tweet_id := some tid, target_tweet_url := some turl }
  else
    .ok { tweet_id := sid, created_at := created,
          tweet_text := pyReplaceChar '\n' ' ' text, tweet_url := furl,
          is_quoted_tweet := quoted, is_reply_tweet := reply, has_media := hm,
          target_tweet_id := none, target_tweet_url := none }

/-- Source lines 162-166: the loop over media_details.  Each entry with type
image (resp. video) has its url classified and appended to image_ids
(resp. video_urls); entries with any other type are passed over.  On the
first exception the loop stops, returning the partially filled MediaDict
together with the exception (the Python mutation of the mapping entry up to
that point persists). -/
def processMedia (d : MediaDict) : List MediaEntry → MediaDict × Option PyError
  | [] => (d, none)
  | m :: rest =>
    match pyLookup m "type" with
    | .error e => (d, some e)
    | .ok ty =>
      if ty = "image" then
        match pyLookup m "url" with
        | .error e => (d, some e)
        | .ok u =>
          match image_or_video_id_from_url u with
          | .error e => (d, some e)
          | .ok iid => processMedia { d with image_ids := d.image_ids ++ [iid] } rest
      else if ty = "video" then
        match pyLookup m "url" with
        | .error e => (d, some e)
        | .ok u =>
          match image_or_video_id_from_url u with
          | .error e => (d, some e)
          | .ok vid => processMedia { d with video_urls := d.video_urls ++ [vid] } rest
      else
        processMedia d rest

/-- The body of the try block for one record (source lines 143-166), stated
without the ambient mapping: the only interaction of the body with
tweet_media_mapping is one assignment keyed by the integer status id (the
appends of the media loop all act on the entry created in the same
iteration, so together they amount to inserting the MediaDict built by
processMedia).  The first component is that optional insertion — performed
even when a later media lookup raises, since the assignment on line 161
precedes the media_details read on line 162 — and the second is the
tweet_data dictionary or the exception that escaped the body. -/
def processTweetAux (t : Tweet) : Option (Nat × MediaDict) × Except PyError TweetData :=
  match t.otherPropertiesMap with
  | none => (none, .error (.keyError "otherPropertiesMap"))
  | some props =>
    match tweetDataOf props with
    | .error e => (none, .error e)
    | .ok d =>
      if d.has_media = "true" then
        match pyInt d.tweet_id with
        | none => (none, .error (.valueError "invalid literal for int"))
        | some tid =>
          match props.media_details with
          | none => (some (tid, EMPTY_MEDIA_DICT), .error (.keyError "media_details"))
          | some entries =>
            match processMedia EMPTY_MEDIA_DICT entries with
            | (dict, some e) => (some (tid, dict), .error e)
            | (dict, none) => (some (tid, dict), .ok d)
      else (none, .ok d)

/-- The body of the try block for one record, applied to the current media
mapping: the mapping as left by the body, and the outcome. -/
def processTweet (map : Mapping) (t : Tweet) : Mapping × Except PyError TweetData :=
  match processTweetAux t with
  | (none, r) => (map, r)
  | (some (tid, dict), r) => (mapInsert map tid dict, r)

/-- The diagnostic lookup in the except block (source line 169):
tweet[otherPropertiesMap][status_id].  When this lookup itself fails the
KeyError it raises escapes the handler and aborts the run. -/
def statusOfTweet (t : Tweet) : Except PyError String :=
  match t.otherPropertiesMap with
  | none => .error (.keyError "otherPropertiesMap")
  | some props => pyLookup props.strFields "status_id"

/-- Source lines 138-179: the per-record loop.  State: remaining records,
error_count, the tweets row accumulator, tweet_media_mapping, and the
printed diagnostics.  A KeyError from the body is handled: print two
diagnostic lines (which re-reads status_id and propagates a KeyError of its
own when that is absent), increment error_count, break out of the loop once
the counter exceeds 10, otherwise continue.  Any other exception
propagates.  The loop itself never raises on normal exit or break: it
returns the accumulated rows, mapping, counter and diagnostics. -/
def runLoop : List Tweet → Nat → List TweetData → Mapping → List String →
    Except PyError (List TweetData × Mapping × Nat × List String)
  | [], ec, tws, map, tr => .ok (tws, map, ec, tr)
  | t :: rest, ec, tws, map, tr =>
    match processTweet map t with
    | (map', .ok d) => runLoop rest ec (tws ++ [d]) map' tr
    | (map', .error (.keyError k)) =>
      match statusOfTweet t with
      | .error e => .error e
      | .ok sid =>
        if ec + 1 > 10 then
          .ok (tws, map', ec + 1,
               tr ++ ["Error processing tweet " ++ sid, "Missing key " ++ k,
                      "Too many errors processing tweets from jsons, stopping"])
        else
          runLoop rest (ec + 1) tws map'
            (tr ++ ["Error processing tweet " ++ sid, "Missing key " ++ k])
    | (_, .error e) => .error e

/-- A parsed created_at timestamp (pd.to_datetime with format
"%a %b %d %H:%M:%S %z %Y" keeps the UTC offset). -/
structure Timestamp where
  year : Nat
  month : Nat
  day : Nat
  hour : Nat
  minute : Nat
  second : Nat
  offsetMinutes : Int
deriving DecidableEq, Repr

def dayNames : List String := ["Mon", "Tue", "Wed", "Thu", "Fri", "Sat", "Sun"]

def monthNames : List String :=
  ["Jan", "Feb", "Mar", "Apr", "May", "Jun", "Jul", "Aug", "Sep", "Oct", "Nov", "Dec"]

/-- One-based index of a month name. -/
def monthIdx : List String → Nat → String → Option Nat
  | [], _, _ => none
  | m :: rest, i, s => if m = s then some i else monthIdx rest (i + 1) s

/-- A %z timezone offset: a sign followed by four digits, in minutes. -/
def parseOffset (l : List Char) : Option Int :=
  match l with
  | [s, a, b, c, d] =>
    if s = '+' ∨ s = '-' then
      match digitVal a, digitVal b, digitVal c, digitVal d with
      | some h1, some h2, some m1, some m2 =>
        let m : Int := ((h1 * 10 + h2) * 60 + (m1 * 10 + m2) : Nat)
        some (if s = '-' then -m else m)
      | _, _, _, _ => none
    else none
  | _ => none

/-- Parsing of a created_at string with the fixed format
"%a %b %d %H:%M:%S %z %Y" (source line 187); none models the ValueError
raised by pd.to_datetime on a non-matching string.  This reproduces the
shape and range checks of strptime for this one format; no claim depends on
its fringes. -/
def parseCreatedAt (s : String) : Option Timestamp :=
  match splitOnChar ' ' (chars s) with
  | [w, mo, dd, tt, zz, yy] =>
    if dayNames.contains (String.mk w) then
      match monthIdx monthNames 1 (String.mk mo), pyIntChars dd,
            splitOnChar ':' tt, parseOffset zz, pyIntChars yy with
      | some m, some d, [hh, mm, ss], some off, some y =>
        match pyIntChars hh, pyIntChars mm, pyIntChars ss with
        | some h, some mi, some sec =>
          if 1 ≤ d ∧ d ≤ 31 ∧ h ≤ 23 ∧ mi ≤ 59 ∧ sec ≤ 61 then
            some { year := y, month := m, day := d, hour := h, minute := mi,
                   second := sec, offsetMinutes := off }
          else none
        | _, _, _ => none
      | _, _, _, _, _ => none
    else none
  | _ => none

/-- The pandas map of the three boolean columns (lines 188-190):
values other than the two literals become missing values, never an error. -/
def pyBoolMap (s : String) : Option Bool :=
  if s = "true" then some true else if s = "false" then some false else none

/-- Series.replace of the literal string null by None, elementwise on a
column whose missing cells are none (lines 192 and 194).  An explicitly
passed value None really replaces in the pandas releases this program runs
on (1.4 and later; before 1.4 an explicit None selected pad filling). -/
def replaceNull (o : Option String) : Option String :=
  match o with
  | none => none
  | some s => if s = "null" then none else some s

/-- One row of the final typed table, after the post-pass coercions. -/
structure Row where
  tweet_id : Nat
  created_at : Timestamp
  tweet_text : String
  tweet_url : String
  is_quoted_tweet : Option Bool
  is_reply_tweet : Option Bool
  has_media : Option Bool
  target_tweet_id : Option Nat
  target_tweet_url : Option String
deriving DecidableEq, Repr

/-- The coercions of one accumulated record into a Row, valid once the
column-level checks of postPass have passed (the defaults are never
reached then). -/
def rowOf (d : TweetData) : Row :=
  { tweet_id := (pyInt d.tweet_id).getD 0,
    created_at := (parseCreatedAt d.created_at).getD
      { year := 0, month := 0, day := 0, hour := 0, minute := 0, second := 0,
        offsetMinutes := 0 },
    tweet_text := d.tweet_text,
    tweet_url := d.tweet_url,
    is_quoted_tweet := pyBoolMap d.is_quoted_tweet,
    is_reply_tweet := pyBoolMap d.is_reply_tweet,
    has_media := pyBoolMap d.has_media,
    target_tweet_id := (replaceNull d.target_tweet_id).bind pyInt,
    target_tweet_url := replaceNull d.target_tweet_url }

/-- Source lines 182-197: the pandas post-pass over the accumulated rows, in
source order.  A DataFrame built from an empty list has no columns at all,
so df[tweet_id] raises KeyError; astype on a non-numeric id raises; the
datetime parse raises on a malformed created_at; df[target_tweet_id] and
df[target_tweet_url] raise KeyError when no accumulated record carried the
key; the astype of target_tweet_id runs after the null normalization.  When
every check passes the table is the elementwise coercion of the rows. -/
def postPass (tws : List TweetData) : Except PyError (List Row) :=
  if tws.isEmpty then .error (.keyError "tweet_id")
  else if tws.any (fun d => (pyInt d.tweet_id).isNone) then
    .error (.typeError "object cannot be converted to an IntegerDtype")
  else if tws.any (fun d => (parseCreatedAt d.created_at).isNone) then
    .error (.valueError "time data does not match format")
  else if tws.all (fun d => d.target_tweet_id.isNone) then
    .error (.keyError "target_tweet_id")
  else if tws.any (fun d =>
      ((replaceNull d.target_tweet_id).map (fun s => (pyInt s).isNone)).getD false) then
    .error (.typeError "object cannot be converted to an IntegerDtype")
  else if tws.all (fun d => d.target_tweet_url.isNone) then
    .error (.keyError "target_tweet_url")
  else
    .ok (tws.map rowOf)

/-- The written outputs of one completed run: the csv table, the media
mapping json, and the run-scoped counter and diagnostics. -/
structure RunOutput where
  table : List Row
  mapping : Mapping
  errorCount : Nat
  trace : List String
deriving DecidableEq, Repr

/-- Source lines 71-202: the whole conversion.  The record loop, then the
post-pass; an exception anywhere aborts the run with no table written. -/
def tweet_jsons_to_csv (tweet_jsons : List Tweet) : Except PyError RunOutput :=
  match runLoop tweet_jsons 0 [] [] [] with
  | .error e => .error e
  | .ok (tws, map, ec, tr) =>
    match postPass tws with
    | .error e => .error e
    | .ok table => .ok { table := table, mapping := map, errorCount := ec, trace := tr }

/-- The has_media field of a record, when reachable. -/
def hasMediaFlag (t : Tweet) : Option String :=
  t.otherPropertiesMap.bind (fun props => (pyLookup props.strFields "has_media").toOption)

/-- The integer id of a record, when status_id is present and numeric. -/
def tweetIdNat (t : Tweet) : Option Nat := (statusOfTweet t).toOption.bind pyInt

/-- The media_details value of a record, when present. -/
def mediaDetailsOf (t : Tweet) : Option (List MediaEntry) :=
  t.otherPropertiesMap.bind (fun props => props.media_details)

/-- The try-block outcome of a record is independent of the mapping it is
run against; failedKeyError t says the record is skipped by the
KeyError handler. -/
def processResult (t : Tweet) : Except PyError TweetData := (processTweet [] t).2

/-- The record raises a KeyError inside the try block. -/
def failedKeyError (t : Tweet) : Prop :=
  ∃ k, processResult t = Except.error (PyError.keyError k)

/-- Spec-side reading of the image-id extraction: the characters after the
last slash of the url (everything, when it has no slash), truncated at the
first question mark.  Stated independently of the split-based code path. -/
def afterLastChar (c : Char) : List Char → List Char
  | [] => []
  | x :: xs =>
    if c ∈ xs then afterLastChar c xs
    else if x = c then xs
    else x :: xs

/-- The characters before the first occurrence of c (the whole list when c
is absent). -/
def takeUntilChar (c : Char) : List Char → List Char
  | [] => []
  | x :: xs => if x = c then [] else x :: takeUntilChar c xs

/-- Spec-side image identifier of a url: the path segment between the last
slash and the question mark, query string stripped. -/
def specImageId (url : String) : String :=
  String.mk (takeUntilChar '?' (afterLastChar '/' (chars url)))

/-! ### Concrete records used as witnesses and counterexamples -/

/-- A well-formed reply record without media. -/
def baseFields : List (String × String) :=
  [("status_id", "111"), ("created_at", "Thu Oct 26 18:01:34 +0000 2023"),
   ("tweet_text", "hello"), ("full_url", "https://twitter.com/MBTA/status/111"),
   ("is_quoted_tweet", "false"), ("is_reply_tweet", "true"),
   ("target_tweet_id", "99"), ("target_tweet_url", "https://twitter.com/MBTA/status/99"),
   ("has_media", "false")]

def tGoodReply : Tweet := { otherPropertiesMap := some { strFields := baseFields } }

/-- The tweet_data dictionary the loop builds for tGoodReply. -/
def dGoodReply : TweetData :=
  { tweet_id := "111", created_at := "Thu Oct 26 18:01:34 +0000 2023",
    tweet_text := "hello", tweet_url := "https://twitter.com/MBTA/status/111",
    is_quoted_tweet := "false", is_reply_tweet := "true", has_media := "false",
    target_tweet_id := some "99",
    target_tweet_url := some "https://twitter.com/MBTA/status/99" }

/-- A record missing the required tweet_text key (status_id present). -/
def badFields : List (String × String) :=
  [("status_id", "222"), ("created_at", "x"), ("full_url", "u"),
   ("is_quoted_tweet", "false"), ("is_reply_tweet", "false"), ("has_media", "false")]

def tBad : Tweet := { otherPropertiesMap := some { strFields := badFields } }

/-- A good record, then eleven records each missing a required key, then one
further good record the loop never reaches. -/
def c1ex : List Tweet := tGoodReply :: List.replicate 11 tBad ++ [tGoodReply]

/-- A record whose otherPropertiesMap lacks status_id itself. -/
def tMissingSid : Tweet :=
  { otherPropertiesMap := some { strFields := [("created_at", "x")] } }

/-- A media record (has_media true) whose media_details key is absent. -/
def mediaFields : List (String × String) :=
  [("status_id", "555"), ("created_at", "Thu Oct 26 18:01:34 +0000 2023"),
   ("tweet_text", "m"), ("full_url", "u"),
   ("is_quoted_tweet", "false"), ("is_reply_tweet", "false"), ("has_media", "true")]

def tMediaNoDetails : Tweet := { otherPropertiesMap := some { strFields := mediaFields } }

/-- A completed run in which the second record is skipped only after its
media-mapping entry was created. -/
def c3ex : List Tweet := [tGoodReply, tMediaNoDetails]

/-- A well-formed reply record carrying one image. -/
def goodMediaFields : List (String × String) :=
  [("status_id", "333"), ("created_at", "Thu Oct 26 18:01:34 +0000 2023"),
   ("tweet_text", "pic"), ("full_url", "https://twitter.com/MBTA/status/333"),
   ("is_quoted_tweet", "false"), ("is_reply_tweet", "true"),
   ("target_tweet_id", "99"), ("target_tweet_url", "https://twitter.com/MBTA/status/99"),
   ("has_media", "true")]

def imgEntry : MediaEntry :=
  [("type", "image"), ("url", "https://pbs.twimg.com/media/F9YmRAnWsAA4xpI?format=jpg&name=orig")]

def tGoodMedia : Tweet :=
  { otherPropertiesMap := some { strFields := goodMediaFields, media_details := some [imgEntry] } }

/-- A media record whose image url is hosted nowhere the classifier knows. -/
def badUrlFields : List (String × String) :=
  [("status_id", "444"), ("created_at", "Thu Oct 26 18:01:34 +0000 2023"),
   ("tweet_text", "x"), ("full_url", "u"),
   ("is_quoted_tweet", "false"), ("is_reply_tweet", "false"), ("has_media", "true")]

def badUrlEntry : MediaEntry :=
  [("type", "image"), ("url", "https://example.com/img.png")]

def tBadUrl : Tweet :=
  { otherPropertiesMap := some { strFields := badUrlFields, media_details := some [badUrlEntry] } }

/-- A media_details entry of a type the loop does not recognize. -/
def gifEntry : MediaEntry := [("type", "gif"), ("url", "https://example.com/not-media")]

/-- A plain record: no reply, no quote, no media. -/
def plainFields : List (String × String) :=
  [("status_id", "666"), ("created_at", "Thu Oct 26 18:01:34 +0000 2023"),
   ("tweet_text", "p"), ("full_url", "u"),
   ("is_quoted_tweet", "false"), ("is_reply_tweet", "false"), ("has_media", "false")]

def tPlain : Tweet := { otherPropertiesMap := some { strFields := plainFields } }

def dPlain : TweetData :=
  { tweet_id := "666", created_at := "Thu Oct 26 18:01:34 +0000 2023",
    tweet_text := "p", tweet_url := "u",
    is_quoted_tweet := "false", is_reply_tweet := "false", has_media := "false" }

/-- An accumulated quoted-tweet row whose target fields are the literal string null. -/
def dNull : TweetData :=
  { tweet_id := "112", created_at := "Thu Oct 26 18:01:34 +0000 2023",
    tweet_text := "q", tweet_url := "u2",
    is_quoted_tweet := "true", is_reply_tweet := "false", has_media := "false",
    target_tweet_id := some "null", target_tweet_url := some "null" }

def rows8 : List TweetData := [dGoodReply, dNull]

/-! ### Helper lemmas about the split-based string operations -/

lemma splitOnChar_ne_nil (c : Char) (l : List Char) : splitOnChar c l ≠ [] := by
  induction l with
  | nil => simp [splitOnChar]
  | cons x xs ih =>
    simp only [splitOnChar]
    cases h : splitOnChar c xs with
    | nil => simp
    | cons seg segs => by_cases hx : x = c <;> simp [hx]

lemma splitOnChar_not_mem {c : Char} {l : List Char} (h : c ∉ l) :
    splitOnChar c l = [l] := by
  induction l with
  | nil => rfl
  | cons x xs ih =>
    have hx : ¬x = c := fun hxc => h (hxc ▸ List.mem_cons_self x xs)
    have hxs : c ∉ xs := fun hc => h (List.mem_cons_of_mem x hc)
    simp only [splitOnChar, ih hxs, if_neg hx]

lemma splitOnChar_mem {c : Char} {l : List Char} (h : c ∈ l) :
    ∃ seg segs, splitOnChar c l = seg :: segs ∧ segs ≠ [] := by
  induction l with
  | nil => cases h
  | cons x xs ih =>
    by_cases hc : c ∈ xs
    · obtain ⟨seg, segs, hs, hne⟩ := ih hc
      simp only [splitOnChar, hs]
      by_cases hx : x = c
      · exact ⟨[], seg :: segs, by simp [hx], by simp⟩
      · exact ⟨x :: seg, segs, by simp [hx], hne⟩
    · have hx : x = c := by
        rcases List.mem_cons.mp h with h1 | h1
        · exact h1.symm
        · exact absurd h1 hc
      simp only [splitOnChar, splitOnChar_not_mem hc]
      exact ⟨[], [xs], by simp [hx], by simp⟩

lemma pyLast_cons_ne {a : List Char} {l : List (List Char)} (h : l ≠ []) :
    pyLast (a :: l) = pyLast l := by
  cases l with
  | nil => exact absurd rfl h
  | cons b bs => rfl

lemma pyHead_splitOnChar (c : Char) (l : List Char) :
    pyHead (splitOnChar c l) = takeUntilChar c l := by
  induction l with
  | nil => rfl
  | cons x xs ih =>
    simp only [splitOnChar, takeUntilChar]
    cases h : splitOnChar c xs with
    | nil => exact absurd h (splitOnChar_ne_nil c xs)
    | cons seg segs =>
      rw [h] at ih
      have ih' : seg = takeUntilChar c xs := by simpa [pyHead] using ih
      by_cases hx : x = c
      · simp only [h, if_pos hx, pyHead]
      · simp only [h, if_neg hx, pyHead, ih']

lemma afterLastChar_not_mem {c : Char} {l : List Char} (h : c ∉ l) :
    afterLastChar c l = l := by
  induction l with
  | nil => rfl
  | cons x xs ih =>
    have hx : ¬x = c := fun hxc => h (hxc ▸ List.mem_cons_self x xs)
    have hxs : c ∉ xs := fun hc => h (List.mem_cons_of_mem x hc)
    simp only [afterLastChar, if_neg hxs, if_neg hx]

lemma pyLast_splitOnChar (c : Char) (l : List Char) :
    pyLast (splitOnChar c l) = afterLastChar c l := by
  induction l with
  | nil => rfl
  | cons x xs ih =>
    by_cases hc : c ∈ xs
    · obtain ⟨seg, segs, hs, hne⟩ := splitOnChar_mem hc
      rw [hs] at ih
      by_cases hx : x = c
      · simp only [splitOnChar, hs, if_pos hx, afterLastChar, if_pos hc]
        rw [pyLast_cons_ne (List.cons_ne_nil seg segs)]
        exact ih
      · simp only [splitOnChar, hs, if_neg hx, afterLastChar, if_pos hc]
        rw [pyLast_cons_ne hne, ← ih, pyLast_cons_ne hne]
    · by_cases hx : x = c
      · simp only [splitOnChar, splitOnChar_not_mem hc, if_pos hx, afterLastChar,
                   if_neg hc]
        rfl
      · simp only [splitOnChar, splitOnChar_not_mem hc, if_neg hx, afterLastChar,
                   if_neg hc]
        rfl

lemma takeUntilChar_append {c : Char} {xs ys : List Char} (h : c ∉ xs) :
    takeUntilChar c (xs ++ ys) = xs ++ takeUntilChar c ys := by
  induction xs with
  | nil => simp
  | cons x xs ih =>
    have hx : ¬x = c := fun hxc => h (hxc ▸ List.mem_cons_self x xs)
    have hxs : c ∉ xs := fun hc => h (List.mem_cons_of_mem x hc)
    simp only [List.cons_append, takeUntilChar, if_neg hx]
    exact congrArg (List.cons x) (ih hxs)

lemma afterLastChar_append {c : Char} {ys zs : List Char} (hz : c ∉ zs) :
    afterLastChar c (ys ++ zs) = afterLastChar c ys ++ zs := by
  induction ys with
  | nil => simp [afterLastChar_not_mem hz, afterLastChar]
  | cons x ys ih =>
    simp only [List.cons_append, afterLastChar, List.append_eq]
    by_cases hy : c ∈ ys
    · rw [if_pos (List.mem_append_left zs hy), if_pos hy]
      exact ih
    · have hyz : c ∉ ys ++ zs := by
        intro hmem
        rcases List.mem_append.mp hmem with h1 | h1
        · exact hy h1
        · exact hz h1
      rw [if_neg hyz, if_neg hy]
      by_cases hx : x = c
      · rw [if_pos hx, if_pos hx]
      · rw [if_neg hx, if_neg hx, List.cons_append]

lemma isPrefixOf_self_append (l r : List Char) : l.isPrefixOf (l ++ r) = true := by
  induction l with
  | nil => simp [List.isPrefixOf]
  | cons x xs ih => simp [List.isPrefixOf, ih]

/-- A url starting with the first video host does not start with the image host. -/
lemma not_media_of_video1 {url : String} (h : pyStartswith url videoHost1 = true) :
    pyStartswith url mediaHost = false := by
  by_cases hm : pyStartswith url mediaHost = true
  · exfalso
    have h1 : chars mediaHost <+: chars url := (List.isPrefixOf_iff_prefix).mp hm
    have h2 : chars videoHost1 <+: chars url := (List.isPrefixOf_iff_prefix).mp h
    have h3 : chars mediaHost <+: chars videoHost1 :=
      List.prefix_of_prefix_length_le h1 h2 (by decide)
    exact absurd h3 (by decide)
  · simpa using hm

/-- A url starting with the second video host does not start with the image host. -/
lemma not_media_of_video2 {url : String} (h : pyStartswith url videoHost2 = true) :
    pyStartswith url mediaHost = false := by
  by_cases hm : pyStartswith url mediaHost = true
  · exfalso
    have h1 : chars mediaHost <+: chars url := (List.isPrefixOf_iff_prefix).mp hm
    have h2 : chars videoHost2 <+: chars url := (List.isPrefixOf_iff_prefix).mp h
    have h3 : chars mediaHost <+: chars videoHost2 :=
      List.prefix_of_prefix_length_le h1 h2 (by decide)
    exact absurd h3 (by decide)
  · simpa using hm

lemma chars_append (s t : String) : chars (s ++ t) = chars s ++ chars t :=
  String.data_append s t

/-! ### Claims C5 and C6: the media reference classifier -/

/-- C5: for every URL beginning with the image-hosting prefix the classifier
returns the path segment between the last slash and the question mark (query
string stripped); in particular it returns exactly the ID for URLs of the
form https pbs.twimg.com media ID query; and for every URL beginning with
either video-hosting prefix it returns the URL unchanged. -/
theorem c5_classifier_extraction :
    (∀ url : String, pyStartswith url mediaHost = true →
      image_or_video_id_from_url url = .ok (specImageId url)) ∧
    (∀ id : String, '/' ∉ chars id → '?' ∉ chars id →
      image_or_video_id_from_url (mediaHost ++ id ++ "?format=jpg&name=orig") =
        .ok id) ∧
    (∀ url : String,
      pyStartswith url videoHost1 = true ∨ pyStartswith url videoHost2 = true →
      image_or_video_id_from_url url = .ok url) := by
  refine ⟨?_, ?_, ?_⟩
  · intro url h
    rw [image_or_video_id_from_url, if_pos h, specImageId,
        pyLast_splitOnChar, pyHead_splitOnChar]
  · intro id h1 h2
    have hpre : pyStartswith (mediaHost ++ id ++ "?format=jpg&name=orig") mediaHost = true := by
      rw [pyStartswith, chars_append, chars_append, List.append_assoc]
      exact isPrefixOf_self_append _ _
    rw [image_or_video_id_from_url, if_pos hpre]
    have hq : '/' ∉ chars "?format=jpg&name=orig" := by decide
    have hslash : '/' ∉ chars id ++ chars "?format=jpg&name=orig" := by
      intro hmem
      rcases List.mem_append.mp hmem with h | h
      · exact h1 h
      · exact hq h
    rw [pyLast_splitOnChar, pyHead_splitOnChar, chars_append, chars_append,
        List.append_assoc, afterLastChar_append hslash,
        show afterLastChar '/' (chars mediaHost) = [] from rfl,
        List.nil_append, takeUntilChar_append h2,
        show takeUntilChar '?' (chars "?format=jpg&name=orig") = [] from rfl,
        List.append_nil]
    rfl
  · intro url h
    have hm : pyStartswith url mediaHost = false := by
      rcases h with h | h
      · exact not_media_of_video1 h
      · exact not_media_of_video2 h
    rcases h with h | h <;>
      simp [image_or_video_id_from_url, hm, h]

/-- C5 witness: the classifier at one concrete image URL and one concrete
video URL. -/
theorem c5_witness :
    image_or_video_id_from_url
        "https://pbs.twimg.com/media/F9YmRAnWsAA4xpI?format=jpg&name=orig" =
      .ok "F9YmRAnWsAA4xpI" ∧
    image_or_video_id_from_url
        "https://video.twimg.com/amplify_video/123/vid/1280x720/abc.mp4?tag=13" =
      .ok "https://video.twimg.com/amplify_video/123/vid/1280x720/abc.mp4?tag=13" := by
  constructor
  · have h := c5_classifier_extraction.2.1 "F9YmRAnWsAA4xpI" (by decide) (by decide)
    exact h
  · exact c5_classifier_extraction.2.2
      "https://video.twimg.com/amplify_video/123/vid/1280x720/abc.mp4?tag=13"
      (Or.inl (by decide))

/-- C6: a URL beginning with none of the three known prefixes fails with the
invalid-reference error carrying the offending URL, and every failure of the
classifier is that same error: no value is returned in any failure case. -/
theorem c6_classifier_invalid_reference :
    (∀ url : String, pyStartswith url mediaHost = false →
      pyStartswith url videoHost1 = false → pyStartswith url videoHost2 = false →
      image_or_video_id_from_url url = .error (.invalidUrl url)) ∧
    (∀ (url : String) (e : PyError),
      image_or_video_id_from_url url = .error e → e = .invalidUrl url) := by
  constructor
  · intro url h1 h2 h3
    simp [image_or_video_id_from_url, h1, h2, h3]
  · intro url e h
    rw [image_or_video_id_from_url] at h
    split at h
    · cases h
    · split at h
      · cases h
      · cases h
        rfl

/-- C6 witness: the classifier rejects one concrete unrecognized URL with
the error carrying that URL. -/
theorem c6_witness :
    image_or_video_id_from_url "https://example.com/a" =
      .error (.invalidUrl "https://example.com/a") ∧
    PyError.invalidUrl "https://example.com/a" =
      .invalidUrl "https://example.com/a" := by
  constructor
  · exact c6_classifier_invalid_reference.1 "https://example.com/a"
      (by decide) (by decide) (by decide)
  · exact c6_classifier_invalid_reference.2 "https://example.com/a"
      (.invalidUrl "https://example.com/a") (by rfl)

/-! ### Characterization lemmas for the per-record body -/

lemma tweetDataOf_ok {props : OtherProps} {d : TweetData}
    (h : tweetDataOf props = .ok d) :
    pyLookup props.strFields "status_id" = .ok d.tweet_id ∧
    pyLookup props.strFields "is_quoted_tweet" = .ok d.is_quoted_tweet ∧
    pyLookup props.strFields "is_reply_tweet" = .ok d.is_reply_tweet ∧
    pyLookup props.strFields "has_media" = .ok d.has_media ∧
    (d.target_tweet_id = none ↔
      ¬(d.is_quoted_tweet = "true" ∨ d.is_reply_tweet = "true")) ∧
    (d.target_tweet_id = none ↔ d.target_tweet_url = none) := by
  unfold tweetDataOf at h
  repeat' split at h
  all_goals (try exact Except.noConfusion h)
  all_goals (injection h with h; subst h; simp_all)

lemma processTweet_snd (map : Mapping) (t : Tweet) :
    (processTweet map t).2 = (processTweetAux t).2 := by
  rcases h : processTweetAux t with ⟨o, r⟩
  cases o with
  | none => simp [processTweet, h]
  | some p =>
    rcases p with ⟨tid, dict⟩
    simp [processTweet, h]

lemma processTweet_fst_none {map : Mapping} {t : Tweet}
    (h : (processTweetAux t).1 = none) : (processTweet map t).1 = map := by
  rcases hp : processTweetAux t with ⟨o, r⟩
  rw [hp] at h
  subst h
  simp [processTweet, hp]

lemma processTweet_fst_some {map : Mapping} {t : Tweet} {tid : Nat} {dict : MediaDict}
    (h : (processTweetAux t).1 = some (tid, dict)) :
    (processTweet map t).1 = mapInsert map tid dict := by
  rcases hp : processTweetAux t with ⟨o, r⟩
  rw [hp] at h
  subst h
  simp [processTweet, hp]

lemma processTweetAux_ok_props {t : Tweet} {d : TweetData}
    (h : (processTweetAux t).2 = .ok d) :
    ∃ props, t.otherPropertiesMap = some props ∧ tweetDataOf props = .ok d := by
  unfold processTweetAux at h
  repeat' split at h
  all_goals (try exact Except.noConfusion h)
  all_goals (injection h with h; subst h; exact ⟨_, by assumption, by assumption⟩)

lemma processTweet_ok_props {map map' : Mapping} {t : Tweet} {d : TweetData}
    (h : processTweet map t = (map', .ok d)) :
    ∃ props, t.otherPropertiesMap = some props ∧ tweetDataOf props = .ok d := by
  have h2 : (processTweetAux t).2 = .ok d := by
    have hsnd := congrArg Prod.snd h
    rw [processTweet_snd] at hsnd
    exact hsnd
  exact processTweetAux_ok_props h2

/-- Where the inserted mapping key of a record comes from: the record has
has_media true, the key is its integer status id, and a successful record
carries that same id in its row. -/
lemma processTweetAux_insert_cases (t : Tweet) :
    (processTweetAux t).1 = none ∨
    ∃ tid dict, (processTweetAux t).1 = some (tid, dict) ∧
      hasMediaFlag t = some "true" ∧ tweetIdNat t = some tid ∧
      ∀ d, (processTweetAux t).2 = .ok d → pyInt d.tweet_id = some tid := by
  cases ho : t.otherPropertiesMap with
  | none => left; simp [processTweetAux, ho]
  | some props =>
    cases ht : tweetDataOf props with
    | error e => left; simp [processTweetAux, ho, ht]
    | ok d =>
      obtain ⟨hsid, hq, hr, hhm, _, _⟩ := tweetDataOf_ok ht
      by_cases hmed : d.has_media = "true"
      · cases hpi : pyInt d.tweet_id with
        | none => left; simp [processTweetAux, ho, ht, hmed, hpi]
        | some tid =>
          right
          have hflag : hasMediaFlag t = some "true" := by
            simp [hasMediaFlag, ho, hhm, hmed, Except.toOption]
          have hid : tweetIdNat t = some tid := by
            simp [tweetIdNat, statusOfTweet, ho, hsid, hpi, Except.toOption]
          cases hdet : props.media_details with
          | none =>
            refine ⟨tid, EMPTY_MEDIA_DICT, ?_, hflag, hid, ?_⟩
            · simp [processTweetAux, ho, ht, hmed, hpi, hdet]
            · intro d' hd'
              simp [processTweetAux, ho, ht, hmed, hpi, hdet] at hd'
          | some entries =>
            rcases hpm : processMedia EMPTY_MEDIA_DICT entries with ⟨dict, err⟩
            cases err with
            | some e =>
              refine ⟨tid, dict, ?_, hflag, hid, ?_⟩
              · simp [processTweetAux, ho, ht, hmed, hpi, hdet, hpm]
              · intro d' hd'
                simp [processTweetAux, ho, ht, hmed, hpi, hdet, hpm] at hd'
            | none =>
              refine ⟨tid, dict, ?_, hflag, hid, ?_⟩
              · simp [processTweetAux, ho, ht, hmed, hpi, hdet, hpm]
              · intro d' hd'
                have hdd : d = d' := by
                  simpa [processTweetAux, ho, ht, hmed, hpi, hdet, hpm] using hd'
                rw [← hdd]
                exact hpi
      · left; simp [processTweetAux, ho, ht, hmed]

lemma mem_keys_mapInsert {m : Mapping} {k k' : Nat} {v : MediaDict} :
    k' ∈ (mapInsert m k v).map Prod.fst ↔ k' = k ∨ k' ∈ m.map Prod.fst := by
  induction m with
  | nil => simp [mapInsert]
  | cons p rest ih =>
    obtain ⟨k0, v0⟩ := p
    by_cases h : k0 = k
    · subst h
      simp [mapInsert]
    · simp only [mapInsert, if_neg h, List.map_cons, List.mem_cons, ih]
      tauto

lemma mapFind_mapInsert_self (m : Mapping) (k : Nat) (v : MediaDict) :
    mapFind (mapInsert m k v) k = some v := by
  induction m with
  | nil => simp [mapInsert, mapFind]
  | cons p rest ih =>
    obtain ⟨k0, v0⟩ := p
    by_cases h : k0 = k
    · subst h
      simp [mapInsert, mapFind]
    · simp [mapInsert, mapFind, h, ih]

lemma processMedia_count :
    ∀ (entries : List MediaEntry) (d0 d : MediaDict),
      (∀ m ∈ entries,
        pyLookup m "type" = .ok "image" ∨ pyLookup m "type" = .ok "video") →
      processMedia d0 entries = (d, none) →
      d.image_ids.length + d.video_urls.length =
        d0.image_ids.length + d0.video_urls.length + entries.length := by
  intro entries
  induction entries with
  | nil =>
    intro d0 d _ h
    injection h with h1 h2
    subst h1
    simp
  | cons m rest ih =>
    intro d0 d hty h
    have htail : ∀ m' ∈ rest,
        pyLookup m' "type" = .ok "image" ∨ pyLookup m' "type" = .ok "video" :=
      fun m' hm' => hty m' (List.mem_cons_of_mem m hm')
    have hhead := hty m (List.mem_cons_self m rest)
    rw [processMedia] at h
    repeat' split at h
    all_goals try (injection h with h1 h2; exact Option.noConfusion h2)
    · have hlen := ih _ _ htail h
      simp [List.length_append] at hlen ⊢
      omega
    · have hlen := ih _ _ htail h
      simp [List.length_append] at hlen ⊢
      omega
    · simp_all

/-! ### Step equations and inductive invariants of the record loop -/

lemma runLoop_nil (ec : Nat) (tws : List TweetData) (map : Mapping) (tr : List String) :
    runLoop [] ec tws map tr = .ok (tws, map, ec, tr) := rfl

lemma runLoop_cons_ok {t : Tweet} {map map' : Mapping} {d : TweetData}
    (rest : List Tweet) (ec : Nat) (tws : List TweetData) (tr : List String)
    (hp : processTweet map t = (map', .ok d)) :
    runLoop (t :: rest) ec tws map tr = runLoop rest ec (tws ++ [d]) map' tr := by
  simp only [runLoop, hp]

lemma runLoop_cons_keyError_continue {t : Tweet} {map map' : Mapping} {k sid : String}
    (rest : List Tweet) (ec : Nat) (tws : List TweetData) (tr : List String)
    (hp : processTweet map t = (map', .error (.keyError k)))
    (hs : statusOfTweet t = .ok sid) (hec : ec + 1 ≤ 10) :
    runLoop (t :: rest) ec tws map tr =
      runLoop rest (ec + 1) tws map'
        (tr ++ ["Error processing tweet " ++ sid, "Missing key " ++ k]) := by
  simp only [runLoop, hp, hs]
  rw [if_neg (show ¬10 < ec + 1 by omega)]

lemma runLoop_cons_keyError_break {t : Tweet} {map map' : Mapping} {k sid : String}
    (rest : List Tweet) (ec : Nat) (tws : List TweetData) (tr : List String)
    (hp : processTweet map t = (map', .error (.keyError k)))
    (hs : statusOfTweet t = .ok sid) (hec : 10 < ec + 1) :
    runLoop (t :: rest) ec tws map tr =
      .ok (tws, map', ec + 1,
           tr ++ ["Error processing tweet " ++ sid, "Missing key " ++ k,
                  "Too many errors processing tweets from jsons, stopping"]) := by
  simp only [runLoop, hp, hs]
  rw [if_pos hec]

lemma runLoop_cons_keyError_nostatus {t : Tweet} {map map' : Mapping} {k : String}
    {e : PyError} (rest : List Tweet) (ec : Nat) (tws : List TweetData) (tr : List String)
    (hp : processTweet map t = (map', .error (.keyError k)))
    (hs : statusOfTweet t = .error e) :
    runLoop (t :: rest) ec tws map tr = .error e := by
  simp only [runLoop, hp, hs]

lemma runLoop_cons_invalidUrl {t : Tweet} {map map' : Mapping} {u : String}
    (rest : List Tweet) (ec : Nat) (tws : List TweetData) (tr : List String)
    (hp : processTweet map t = (map', .error (.invalidUrl u))) :
    runLoop (t :: rest) ec tws map tr = .error (.invalidUrl u) := by
  simp only [runLoop, hp]

lemma runLoop_cons_valueError {t : Tweet} {map map' : Mapping} {msg : String}
    (rest : List Tweet) (ec : Nat) (tws : List TweetData) (tr : List String)
    (hp : processTweet map t = (map', .error (.valueError msg))) :
    runLoop (t :: rest) ec tws map tr = .error (.valueError msg) := by
  simp only [runLoop, hp]

lemma runLoop_cons_typeError {t : Tweet} {map map' : Mapping} {msg : String}
    (rest : List Tweet) (ec : Nat) (tws : List TweetData) (tr : List String)
    (hp : processTweet map t = (map', .error (.typeError msg))) :
    runLoop (t :: rest) ec tws map tr = .error (.typeError msg) := by
  simp only [runLoop, hp]

/-- Rows accumulated before the loop survive into the loop's final row list. -/
lemma runLoop_acc_sub :
    ∀ (ts : List Tweet) (ec : Nat) (tws : List TweetData) (map : Mapping)
      (tr : List String) (res : List TweetData × Mapping × Nat × List String),
      runLoop ts ec tws map tr = .ok res → ∀ d ∈ tws, d ∈ res.1 := by
  intro ts
  induction ts with
  | nil =>
    intro ec tws map tr res h d hd
    rw [runLoop_nil] at h
    injection h with h
    rw [← h]
    exact hd
  | cons t rest ih =>
    intro ec tws map tr res h d hd
    rcases hp : processTweet map t with ⟨map', r⟩
    cases r with
    | ok d0 =>
      rw [runLoop_cons_ok rest ec tws tr hp] at h
      exact ih _ _ _ _ _ h d (List.mem_append_left _ hd)
    | error e =>
      cases e with
      | keyError k =>
        cases hs : statusOfTweet t with
        | error e' =>
          rw [runLoop_cons_keyError_nostatus rest ec tws tr hp hs] at h
          exact Except.noConfusion h
        | ok sid =>
          by_cases hec : ec + 1 ≤ 10
          · rw [runLoop_cons_keyError_continue rest ec tws tr hp hs hec] at h
            exact ih _ _ _ _ _ h d hd
          · rw [runLoop_cons_keyError_break rest ec tws tr hp hs (by omega)] at h
            injection h with h
            rw [← h]
            exact hd
      | invalidUrl u =>
        rw [runLoop_cons_invalidUrl rest ec tws tr hp] at h
        exact Except.noConfusion h
      | valueError msg =>
        rw [runLoop_cons_valueError rest ec tws tr hp] at h
        exact Except.noConfusion h
      | typeError msg =>
        rw [runLoop_cons_typeError rest ec tws tr hp] at h
        exact Except.noConfusion h

/-- Mapping keys present before the loop survive into the loop's final mapping. -/
lemma runLoop_keys_mono :
    ∀ (ts : List Tweet) (ec : Nat) (tws : List TweetData) (map : Mapping)
      (tr : List String) (res : List TweetData × Mapping × Nat × List String),
      runLoop ts ec tws map tr = .ok res →
      ∀ k, k ∈ map.map Prod.fst → k ∈ res.2.1.map Prod.fst := by
  intro ts
  induction ts with
  | nil =>
    intro ec tws map tr res h k hk
    rw [runLoop_nil] at h
    injection h with h
    rw [← h]
    exact hk
  | cons t rest ih =>
    intro ec tws map tr res h k hk
    have hk' : k ∈ (processTweet map t).1.map Prod.fst := by
      rcases processTweetAux_insert_cases t with hnone | ⟨tid, dict, hsome, _, _, _⟩
      · rw [processTweet_fst_none hnone]
        exact hk
      · rw [processTweet_fst_some hsome]
        exact mem_keys_mapInsert.mpr (Or.inr hk)
    rcases hp : processTweet map t with ⟨map', r⟩
    rw [hp] at hk'
    cases r with
    | ok d0 =>
      rw [runLoop_cons_ok rest ec tws tr hp] at h
      exact ih _ _ _ _ _ h k hk'
    | error e =>
      cases e with
      | keyError k0 =>
        cases hs : statusOfTweet t with
        | error e' =>
          rw [runLoop_cons_keyError_nostatus rest ec tws tr hp hs] at h
          exact Except.noConfusion h
        | ok sid =>
          by_cases hec : ec + 1 ≤ 10
          · rw [runLoop_cons_keyError_continue rest ec tws tr hp hs hec] at h
            exact ih _ _ _ _ _ h k hk'
          · rw [runLoop_cons_keyError_break rest ec tws tr hp hs (by omega)] at h
            injection h with h
            rw [← h]
            exact hk'
      | invalidUrl u =>
        rw [runLoop_cons_invalidUrl rest ec tws tr hp] at h
        exact Except.noConfusion h
      | valueError msg =>
        rw [runLoop_cons_valueError rest ec tws tr hp] at h
        exact Except.noConfusion h
      | typeError msg =>
        rw [runLoop_cons_typeError rest ec tws tr hp] at h
        exact Except.noConfusion h

/-- Origin of every key of the final mapping: some record of the input with
has_media true and that integer id put it there, and that record either
contributed a row carrying the same id or was skipped by the KeyError
handler. -/
lemma runLoop_mapping_origin :
    ∀ (ts : List Tweet) (ec : Nat) (tws : List TweetData) (map : Mapping)
      (tr : List String) (res : List TweetData × Mapping × Nat × List String),
      runLoop ts ec tws map tr = .ok res →
      ∀ k, k ∈ res.2.1.map Prod.fst →
        k ∈ map.map Prod.fst ∨
        ∃ t, t ∈ ts ∧ hasMediaFlag t = some "true" ∧ tweetIdNat t = some k ∧
          ((∃ d, d ∈ res.1 ∧ pyInt d.tweet_id = some k) ∨ failedKeyError t) := by
  intro ts
  induction ts with
  | nil =>
    intro ec tws map tr res h k hk
    rw [runLoop_nil] at h
    injection h with h
    rw [← h] at hk
    exact Or.inl hk
  | cons t rest ih =>
    intro ec tws map tr res h k hk
    rcases hp : processTweet map t with ⟨map', r⟩
    have hfst : (processTweet map t).1 = map' := by rw [hp]
    have hstep : k ∈ map'.map Prod.fst →
        k ∈ map.map Prod.fst ∨
        (hasMediaFlag t = some "true" ∧ tweetIdNat t = some k ∧
          ∀ d, (processTweet map t).2 = .ok d → pyInt d.tweet_id = some k) := by
      intro hk'
      rcases processTweetAux_insert_cases t with hnone | ⟨tid, dict, hsome, hflag, hid, hrow⟩
      · left
        rw [← hfst, processTweet_fst_none hnone] at hk'
        exact hk'
      · rw [← hfst, processTweet_fst_some hsome] at hk'
        rcases mem_keys_mapInsert.mp hk' with hkt | hkm
        · right
          subst hkt
          refine ⟨hflag, hid, ?_⟩
          intro d hd
          have hd' : (processTweetAux t).2 = .ok d := by
            rw [← processTweet_snd map t]
            exact hd
          exact hrow d hd'
        · exact Or.inl hkm
    cases r with
    | ok d0 =>
      rw [runLoop_cons_ok rest ec tws tr hp] at h
      rcases ih _ _ _ _ _ h k hk with hmem | ⟨t', ht', hflag', hid', hcase⟩
      · rcases hstep hmem with hmap | ⟨hflag, hid, hrow⟩
        · exact Or.inl hmap
        · right
          refine ⟨t, List.mem_cons_self t rest, hflag, hid, Or.inl ⟨d0, ?_, ?_⟩⟩
          · exact runLoop_acc_sub _ _ _ _ _ _ h d0 (List.mem_append_right _ (List.mem_singleton.mpr rfl))
          · exact hrow d0 (by rw [hp])
      · exact Or.inr ⟨t', List.mem_cons_of_mem t ht', hflag', hid', hcase⟩
    | error e =>
      cases e with
      | keyError k0 =>
        have hfail : failedKeyError t := by
          refine ⟨k0, ?_⟩
          rw [processResult, processTweet_snd [] t, ← processTweet_snd map t, hp]
        cases hs : statusOfTweet t with
        | error e' =>
          rw [runLoop_cons_keyError_nostatus rest ec tws tr hp hs] at h
          exact Except.noConfusion h
        | ok sid =>
          by_cases hec : ec + 1 ≤ 10
          · rw [runLoop_cons_keyError_continue rest ec tws tr hp hs hec] at h
            rcases ih _ _ _ _ _ h k hk with hmem | ⟨t', ht', hflag', hid', hcase⟩
            · rcases hstep hmem with hmap | ⟨hflag, hid, _⟩
              · exact Or.inl hmap
              · exact Or.inr ⟨t, List.mem_cons_self t rest, hflag, hid, Or.inr hfail⟩
            · exact Or.inr ⟨t', List.mem_cons_of_mem t ht', hflag', hid', hcase⟩
          · rw [runLoop_cons_keyError_break rest ec tws tr hp hs (by omega)] at h
            injection h with h
            rw [← h] at hk
            rcases hstep hk with hmap | ⟨hflag, hid, _⟩
            · exact Or.inl hmap
            · exact Or.inr ⟨t, List.mem_cons_self t rest, hflag, hid, Or.inr hfail⟩
      | invalidUrl u =>
        rw [runLoop_cons_invalidUrl rest ec tws tr hp] at h
        exact Except.noConfusion h
      | valueError msg =>
        rw [runLoop_cons_valueError rest ec tws tr hp] at h
        exact Except.noConfusion h
      | typeError msg =>
        rw [runLoop_cons_typeError rest ec tws tr hp] at h
        exact Except.noConfusion h

/-- A completed post-pass is the elementwise coercion of the accumulated rows. -/
lemma postPass_ok {tws : List TweetData} {tbl : List Row}
    (h : postPass tws = .ok tbl) : tbl = tws.map rowOf := by
  unfold postPass at h
  repeat' split at h
  all_goals (try exact Except.noConfusion h)
  injection h with h
  exact h.symm

/-! ### Claim C1: the circuit breaker -/

/-- C1 (amended): once the error counter exceeds 10, processing stops
immediately — no remaining record is read, whatever follows in the input —
and the stopping diagnostic is printed; but no TooManyErrors error is
raised: the loop returns its accumulated state normally and the run
proceeds to the post-pass table construction on the rows gathered so far,
so an output table is still written whenever that construction succeeds. -/
theorem c1_circuit_breaker :
    (∀ (t : Tweet) (rest : List Tweet) (ec : Nat) (tws : List TweetData)
       (map map' : Mapping) (tr : List String) (k sid : String),
       processTweet map t = (map', .error (.keyError k)) →
       statusOfTweet t = .ok sid → 10 ≤ ec →
       runLoop (t :: rest) ec tws map tr =
         .ok (tws, map', ec + 1,
           tr ++ ["Error processing tweet " ++ sid, "Missing key " ++ k,
                  "Too many errors processing tweets from jsons, stopping"])) ∧
    (∀ (ts : List Tweet) (tws : List TweetData) (map : Mapping) (ec : Nat)
       (tr : List String),
       runLoop ts 0 [] [] [] = .ok (tws, map, ec, tr) →
       tweet_jsons_to_csv ts =
         (postPass tws).map (fun table =>
           { table := table, mapping := map, errorCount := ec, trace := tr })) := by
  constructor
  · intro t rest ec tws map map' tr k sid hp hs hec
    exact runLoop_cons_keyError_break rest ec tws tr hp hs (by omega)
  · intro ts tws map ec tr h
    unfold tweet_jsons_to_csv
    rw [h]
    cases hpp : postPass tws <;> simp [Except.map, hpp]

/-- C1 witness: a record at counter 10 trips the breaker and the loop
returns normally; a completed loop hands its rows to the post-pass. -/
theorem c1_witness :
    runLoop [tBad] 10 [] [] [] =
      .ok ([], [], 11,
        ["Error processing tweet 222", "Missing key tweet_text",
         "Too many errors processing tweets from jsons, stopping"]) ∧
    tweet_jsons_to_csv [tGoodReply] =
      (postPass [dGoodReply]).map (fun table =>
        { table := table, mapping := [], errorCount := 0, trace := [] }) := by
  constructor
  · exact c1_circuit_breaker.1 tBad [] 10 [] [] [] [] "tweet_text" "222"
      (by rfl) (by rfl) (by omega)
  · exact c1_circuit_breaker.2 [tGoodReply] [dGoodReply] [] 0 [] (by rfl)

/-- C1 counterexample: a run in which the counter exceeds 10 (eleven skipped
records) completes with .ok — no TooManyErrors failure — and writes a
one-row output table from the records processed before the break.  The
claim as stated (a fatal error is raised and no output table is written
once the counter exceeds 10) is therefore false of the code. -/
theorem c1_counterexample :
    (tweet_jsons_to_csv c1ex).toOption.map
      (fun o => (o.errorCount, o.table.length)) = some (11, 1) := by rfl

/-! ### Claim C2: missing-key handling -/

/-- C2 (amended): a record whose extraction raises KeyError is handled when
status_id is reachable: two diagnostics naming the post identifier and the
missing key are printed, the error counter grows by exactly one, the record
contributes no row, and the loop continues with the remaining records while
the counter stays at most the threshold.  A record that fails already in
the scalar (or target) extraction leaves the media mapping untouched.  But
when otherPropertiesMap or status_id itself is absent, the diagnostic
lookup in the handler raises its own KeyError, which is not caught: the
whole run aborts instead of skipping the record. -/
theorem c2_missing_key_skip :
    (∀ (t : Tweet) (rest : List Tweet) (ec : Nat) (tws : List TweetData)
       (map map' : Mapping) (tr : List String) (k sid : String),
       processTweet map t = (map', .error (.keyError k)) →
       statusOfTweet t = .ok sid → ec + 1 ≤ 10 →
       runLoop (t :: rest) ec tws map tr =
         runLoop rest (ec + 1) tws map'
           (tr ++ ["Error processing tweet " ++ sid, "Missing key " ++ k])) ∧
    (∀ (map : Mapping) (props : OtherProps) (e : PyError),
       tweetDataOf props = .error e →
       processTweet map { otherPropertiesMap := some props } = (map, .error e)) ∧
    (∀ (t : Tweet) (rest : List Tweet) (ec : Nat) (tws : List TweetData)
       (map map' : Mapping) (tr : List String) (k : String) (e : PyError),
       processTweet map t = (map', .error (.keyError k)) →
       statusOfTweet t = .error e →
       runLoop (t :: rest) ec tws map tr = .error e) := by
  refine ⟨?_, ?_, ?_⟩
  · intro t rest ec tws map map' tr k sid hp hs hec
    exact runLoop_cons_keyError_continue rest ec tws tr hp hs hec
  · intro map props e ht
    simp [processTweet, processTweetAux, ht]
  · intro t rest ec tws map map' tr k e hp hs
    exact runLoop_cons_keyError_nostatus rest ec tws tr hp hs

/-- C2 witness: a record missing tweet_text is skipped with the two
diagnostics and counter one; a scalar failure leaves the mapping empty; a
record without status_id aborts the loop with the uncaught KeyError. -/
theorem c2_witness :
    runLoop [tBad] 0 [] [] [] =
      runLoop [] 1 [] [] ["Error processing tweet 222", "Missing key tweet_text"] ∧
    processTweet [] { otherPropertiesMap := some { strFields := badFields } } =
      ([], .error (.keyError "tweet_text")) ∧
    runLoop [tMissingSid] 0 [] [] [] = .error (.keyError "status_id") := by
  refine ⟨?_, ?_, ?_⟩
  · exact c2_missing_key_skip.1 tBad [] 0 [] [] [] [] "tweet_text" "222"
      (by rfl) (by rfl) (by omega)
  · exact c2_missing_key_skip.2.1 [] { strFields := badFields }
      (.keyError "tweet_text") (by rfl)
  · exact c2_missing_key_skip.2.2 tMissingSid [] 0 [] [] []
      [] "status_id" (.keyError "status_id") (by rfl) (by rfl)

/-- C2 counterexample: on an input whose first record lacks status_id, the
run aborts with the handler's own uncaught KeyError — the record is not
skipped, the counter is not incremented, and the following well-formed
record is never processed — contradicting the claim that every record with
a missing required key (including status_id) is counted, skipped and
processing continues. -/
theorem c2_counterexample :
    tweet_jsons_to_csv [tMissingSid, tGoodReply] =
      .error (.keyError "status_id") := by rfl

/-! ### Claim C7: classification failures are fatal -/

/-- C7: an InvalidReference classification failure inside the media loop
escapes the KeyError handler: the record loop stops at that record with the
error itself — independently of how many records remain — and the whole
conversion returns that error, so no output is written and the counter
machinery plays no part. -/
theorem c7_invalid_reference_aborts_run :
    (∀ (t : Tweet) (rest : List Tweet) (ec : Nat) (tws : List TweetData)
       (map map' : Mapping) (tr : List String) (u : String),
       processTweet map t = (map', .error (.invalidUrl u)) →
       runLoop (t :: rest) ec tws map tr = .error (.invalidUrl u)) ∧
    (∀ (ts : List Tweet) (u : String),
       runLoop ts 0 [] [] [] = .error (.invalidUrl u) →
       tweet_jsons_to_csv ts = .error (.invalidUrl u)) := by
  constructor
  · intro t rest ec tws map map' tr u hp
    exact runLoop_cons_invalidUrl rest ec tws tr hp
  · intro ts u h
    unfold tweet_jsons_to_csv
    rw [h]

/-- C7 witness: one record with an unrecognized media URL fails a whole
concrete run with the InvalidReference error carrying that URL. -/
theorem c7_witness :
    runLoop [tBadUrl] 0 [] [] [] =
      .error (.invalidUrl "https://example.com/img.png") ∧
    tweet_jsons_to_csv [tBadUrl] =
      .error (.invalidUrl "https://example.com/img.png") := by
  constructor
  · exact c7_invalid_reference_aborts_run.1 tBadUrl [] 0 [] []
      [(444, EMPTY_MEDIA_DICT)] [] "https://example.com/img.png" (by rfl)
  · exact c7_invalid_reference_aborts_run.2 [tBadUrl]
      "https://example.com/img.png" (by rfl)

/-! ### Claim C3: mapping keys versus table keys -/

/-- C3 (amended): after a completed run, every key of the media mapping was
put there by a record of the input with has_media true and that integer
status id, and that key is a key of the output table unless the record was
skipped by the KeyError handler after its mapping entry had been created
(a missing media_details or media-entry key); a record with has_media false
never contributes a key.  The unconditional subset claim fails. -/
theorem c3_mapping_key_origin (ts : List Tweet) (mp : Mapping) (ids : List Nat)
    (h : (tweet_jsons_to_csv ts).toOption.map
        (fun o => (o.mapping, o.table.map Row.tweet_id)) = some (mp, ids))
    (k : Nat) (hk : k ∈ mp.map Prod.fst) :
    ∃ t, t ∈ ts ∧ hasMediaFlag t = some "true" ∧ tweetIdNat t = some k ∧
      (k ∈ ids ∨ failedKeyError t) := by
  cases hrun : runLoop ts 0 [] [] [] with
  | error e =>
    have hjc : tweet_jsons_to_csv ts = .error e := by
      simp only [tweet_jsons_to_csv, hrun]
    rw [hjc] at h
    simp [Except.toOption] at h
  | ok r =>
    rcases r with ⟨tws, map, ec, tr⟩
    cases hpp : postPass tws with
    | error e =>
      have hjc : tweet_jsons_to_csv ts = .error e := by
        simp only [tweet_jsons_to_csv, hrun, hpp]
      rw [hjc] at h
      simp [Except.toOption] at h
    | ok tbl =>
      have hjc : tweet_jsons_to_csv ts =
          .ok { table := tbl, mapping := map, errorCount := ec, trace := tr } := by
        simp only [tweet_jsons_to_csv, hrun, hpp]
      rw [hjc] at h
      have h2 : (map, List.map Row.tweet_id tbl) = (mp, ids) := by
        injection h
      injection h2 with hmp hids
      subst hmp
      subst hids
      rcases runLoop_mapping_origin ts 0 [] [] [] (tws, map, ec, tr) hrun k hk with
        habs | ⟨t, ht, hflag, hid, hcase⟩
      · simp at habs
      · refine ⟨t, ht, hflag, hid, ?_⟩
        rcases hcase with ⟨d, hd, hdi⟩ | hfail
        · left
          rw [postPass_ok hpp]
          refine List.mem_map.mpr ⟨rowOf d, List.mem_map.mpr ⟨d, hd, rfl⟩, ?_⟩
          simp [rowOf, hdi]
        · exact Or.inr hfail

/-- C3 witness: in a completed concrete run with one image-bearing record,
the single mapping key comes from that record and is a table key. -/
theorem c3_witness :
    ∃ t, t ∈ [tGoodMedia] ∧ hasMediaFlag t = some "true" ∧
      tweetIdNat t = some 333 ∧ (333 ∈ [333] ∨ failedKeyError t) :=
  c3_mapping_key_origin [tGoodMedia]
    [(333, { image_ids := ["F9YmRAnWsAA4xpI"], video_urls := [] })] [333]
    (by rfl) 333 (by simp)

/-- C3 counterexample: a completed run (one good reply record, then a
has_media record whose media_details key is absent) whose media mapping has
a key that is not a key of the row table: the claim that every mapping key
is a table key after any run is false of the code, because the mapping
entry on line 161 is created before media_details is read on line 162 and
survives the skip. -/
theorem c3_counterexample :
    (tweet_jsons_to_csv c3ex).toOption.map
      (fun o => (o.mapping.map Prod.fst).all
        (fun k => (o.table.map Row.tweet_id).contains k)) = some false := by rfl

/-! ### Claim C4: media mapping round trip for successful media records -/

/-- C4: a successfully processed record with has_media true whose
media_details entries all have type image or video puts its integer id into
the media mapping, with image_ids and video_urls lengths summing to the
length of media_details; and mapping keys survive the rest of the loop. -/
theorem c4_media_mapping_lengths :
    (∀ (map map' : Mapping) (t : Tweet) (d : TweetData) (entries : List MediaEntry),
       processTweet map t = (map', .ok d) →
       hasMediaFlag t = some "true" →
       mediaDetailsOf t = some entries →
       (∀ m ∈ entries,
         pyLookup m "type" = .ok "image" ∨ pyLookup m "type" = .ok "video") →
       ∃ tid dict, tweetIdNat t = some tid ∧ pyInt d.tweet_id = some tid ∧
         mapFind map' tid = some dict ∧
         dict.image_ids.length + dict.video_urls.length = entries.length) ∧
    (∀ (ts : List Tweet) (ec : Nat) (tws : List TweetData) (map : Mapping)
       (tr : List String) (res : List TweetData × Mapping × Nat × List String),
       runLoop ts ec tws map tr = .ok res →
       ∀ k, k ∈ map.map Prod.fst → k ∈ res.2.1.map Prod.fst) := by
  constructor
  · intro map map' t d entries hp hflag hdet htypes
    cases ho : t.otherPropertiesMap with
    | none => rw [hasMediaFlag, ho] at hflag; exact Option.noConfusion hflag
    | some props =>
      obtain ⟨props', hprops', ht⟩ := processTweet_ok_props hp
      rw [ho] at hprops'
      injection hprops' with hprops'
      subst hprops'
      obtain ⟨hsid, _, _, hhm, _, _⟩ := tweetDataOf_ok ht
      have hmed : d.has_media = "true" := by
        rw [hasMediaFlag, ho] at hflag
        simp [hhm, Except.toOption] at hflag
        exact hflag
      have hdet' : props.media_details = some entries := by
        rw [mediaDetailsOf, ho] at hdet
        simpa using hdet
      have hsnd : (processTweetAux t).2 = .ok d := by
        rw [← processTweet_snd map t, hp]
      cases hpi : pyInt d.tweet_id with
      | none =>
        simp only [processTweetAux, ho, ht] at hsnd
        simp [hmed, hpi] at hsnd
      | some tid =>
        rcases hpm : processMedia EMPTY_MEDIA_DICT entries with ⟨dict, err⟩
        cases err with
        | some e =>
          simp only [processTweetAux, ho, ht] at hsnd
          simp [hmed, hpi, hdet', hpm] at hsnd
        | none =>
          have haux : (processTweetAux t).1 = some (tid, dict) := by
            simp only [processTweetAux, ho, ht]
            simp [hmed, hpi, hdet', hpm]
          have hfst : map' = mapInsert map tid dict := by
            have h1 := congrArg Prod.fst hp
            rw [processTweet_fst_some haux] at h1
            exact h1.symm
          refine ⟨tid, dict, ?_, rfl, ?_, ?_⟩
          · simp [tweetIdNat, statusOfTweet, ho, hsid, hpi, Except.toOption]
          · rw [hfst]
            exact mapFind_mapInsert_self map tid dict
          · have hcount := processMedia_count entries EMPTY_MEDIA_DICT dict htypes hpm
            simpa [EMPTY_MEDIA_DICT] using hcount
  · exact runLoop_keys_mono

/-- C4 witness: the concrete image-bearing record yields mapping key 333
with one image id and no video urls for its single media entry; and a
pre-existing key survives an empty loop. -/
theorem c4_witness :
    (∃ tid dict, tweetIdNat tGoodMedia = some tid ∧
      pyInt "333" = some tid ∧
      mapFind [(333, { image_ids := ["F9YmRAnWsAA4xpI"], video_urls := [] })] tid =
        some dict ∧
      dict.image_ids.length + dict.video_urls.length = 1) ∧
    1 ∈ (([(1, EMPTY_MEDIA_DICT)] : Mapping).map Prod.fst) := by
  constructor
  · have h := c4_media_mapping_lengths.1 []
      [(333, { image_ids := ["F9YmRAnWsAA4xpI"], video_urls := [] })]
      tGoodMedia
      { tweet_id := "333", created_at := "Thu Oct 26 18:01:34 +0000 2023",
        tweet_text := "pic", tweet_url := "https://twitter.com/MBTA/status/333",
        is_quoted_tweet := "false", is_reply_tweet := "true", has_media := "true",
        target_tweet_id := some "99",
        target_tweet_url := some "https://twitter.com/MBTA/status/99" }
      [imgEntry] (by rfl) (by rfl) (by rfl)
      (by
        intro m hm
        rw [List.mem_singleton] at hm
        subst hm
        exact Or.inl rfl)
    simpa using h
  · exact c4_media_mapping_lengths.2 [] 0 [] [(1, EMPTY_MEDIA_DICT)] []
      ([], [(1, EMPTY_MEDIA_DICT)], 0, []) (by rfl) 1 (by simp)

/-! ### Claim C8: literal null targets become missing values -/

/-- C8: in a completed post-pass, an accumulated record whose
target_tweet_id is the literal string null yields a row present in the
table whose target_tweet_id is the missing value none — by type neither an
integer 0 nor any string — and likewise a literal null target_tweet_url
becomes none; the normalization precedes the integer coercion, which is
why the post-pass accepts the literal without error. -/
theorem c8_null_target_normalized :
    ∀ (tws : List TweetData) (tbl : List Row) (d : TweetData),
      postPass tws = .ok tbl → d ∈ tws →
      (d.target_tweet_id = some "null" →
        rowOf d ∈ tbl ∧ (rowOf d).target_tweet_id = none) ∧
      (d.target_tweet_url = some "null" → (rowOf d).target_tweet_url = none) := by
  intro tws tbl d hpp hd
  constructor
  · intro hnull
    constructor
    · rw [postPass_ok hpp]
      exact List.mem_map_of_mem rowOf hd
    · simp [rowOf, replaceNull, hnull]
  · intro hnull
    simp [rowOf, replaceNull, hnull]

/-- C8 witness: a concrete two-row post-pass (one real target id, one
literal null) succeeds and the null row carries none in both target
columns. -/
theorem c8_witness :
    (rowOf dNull ∈ rows8.map rowOf ∧ (rowOf dNull).target_tweet_id = none) ∧
    (rowOf dNull).target_tweet_url = none := by
  have h := c8_null_target_normalized rows8 (rows8.map rowOf) dNull
    (by rfl) (by simp [rows8])
  exact ⟨h.1 rfl, h.2 rfl⟩

/-! ### Claim C9: the post-pass needs the id and target columns -/

lemma postPass_fails_without_target (tws : List TweetData)
    (h : tws = [] ∨ ∀ d ∈ tws, d.target_tweet_id = none) :
    ∃ e, postPass tws = .error e := by
  rcases h with rfl | hall
  · exact ⟨.keyError "tweet_id", by simp [postPass]⟩
  · unfold postPass
    split_ifs with h1 h2 h3 h4 h5 h6
    all_goals try exact ⟨_, rfl⟩
    exact absurd (List.all_eq_true.mpr fun d hd => by simp [hall d hd]) h4

/-- C9: the run fails with an error (writing no table) whenever the
successfully processed records are empty — the empty DataFrame has no
tweet_id column — or none of them is a quoted tweet or reply — no record
dictionary carried target_tweet_id, so that column does not exist when
line 192 reads it; and a processed record carries a target exactly when it
is quoted or a reply. -/
theorem c9_missing_columns_fail_run :
    (∀ tws : List TweetData,
       tws = [] ∨ (∀ d ∈ tws, d.target_tweet_id = none) →
       ∃ e, postPass tws = .error e) ∧
    (∀ (map map' : Mapping) (t : Tweet) (d : TweetData),
       processTweet map t = (map', .ok d) →
       (d.target_tweet_id = none ↔
         ¬(d.is_quoted_tweet = "true" ∨ d.is_reply_tweet = "true"))) ∧
    (∀ (ts : List Tweet) (tws : List TweetData) (map : Mapping) (ec : Nat)
       (tr : List String),
       runLoop ts 0 [] [] [] = .ok (tws, map, ec, tr) →
       (tws = [] ∨ ∀ d ∈ tws, d.target_tweet_id = none) →
       ∃ e, tweet_jsons_to_csv ts = .error e) := by
  refine ⟨postPass_fails_without_target, ?_, ?_⟩
  · intro map map' t d hp
    obtain ⟨props, ho, ht⟩ := processTweet_ok_props hp
    exact (tweetDataOf_ok ht).2.2.2.2.1
  · intro ts tws map ec tr h hcond
    obtain ⟨e, hpp⟩ := postPass_fails_without_target tws hcond
    refine ⟨e, ?_⟩
    simp only [tweet_jsons_to_csv, h, hpp]

/-- C9 witness: the empty table fails; a concrete plain record carries no
target; a one-plain-record run fails end to end. -/
theorem c9_witness :
    (∃ e, postPass ([] : List TweetData) = .error e) ∧
    (dPlain.target_tweet_id = none ↔
      ¬(dPlain.is_quoted_tweet = "true" ∨ dPlain.is_reply_tweet = "true")) ∧
    (∃ e, tweet_jsons_to_csv [tPlain] = .error e) := by
  refine ⟨?_, ?_, ?_⟩
  · exact c9_missing_columns_fail_run.1 [] (Or.inl rfl)
  · exact c9_missing_columns_fail_run.2.1 [] [] tPlain dPlain (by rfl)
  · refine c9_missing_columns_fail_run.2.2 [tPlain] [dPlain] [] 0 [] (by rfl)
      (Or.inr ?_)
    intro d hd
    rw [List.mem_singleton] at hd
    subst hd
    rfl

/-! ### Claim C10: unrecognized media types are silently passed over -/

/-- C10: a media_details entry whose type is neither image nor video is
skipped by the media loop with no other effect: its url is never read or
classified (so an invalid url there cannot abort the run), nothing is
appended to either sequence, and the whole per-record outcome — hence every
diagnostic and the error counter — is as if the entry were absent. -/
theorem c10_unrecognized_type_ignored :
    (∀ (d : MediaDict) (m : MediaEntry) (rest : List MediaEntry) (ty : String),
       pyLookup m "type" = .ok ty → ty ≠ "image" → ty ≠ "video" →
       processMedia d (m :: rest) = processMedia d rest) ∧
    (∀ (map : Mapping) (fields : List (String × String)) (m : MediaEntry)
       (rest : List MediaEntry) (ty : String),
       pyLookup m "type" = .ok ty → ty ≠ "image" → ty ≠ "video" →
       processTweet map
         { otherPropertiesMap :=
             some { strFields := fields, media_details := some (m :: rest) } } =
       processTweet map
         { otherPropertiesMap :=
             some { strFields := fields, media_details := some rest } }) := by
  have hmedia : ∀ (d : MediaDict) (m : MediaEntry) (rest : List MediaEntry) (ty : String),
      pyLookup m "type" = .ok ty → ty ≠ "image" → ty ≠ "video" →
      processMedia d (m :: rest) = processMedia d rest := by
    intro d m rest ty hty h1 h2
    simp only [processMedia, hty]
    rw [if_neg h1, if_neg h2]
  refine ⟨hmedia, ?_⟩
  intro map fields m rest ty hty h1 h2
  have hdata : tweetDataOf { strFields := fields, media_details := some (m :: rest) } =
      tweetDataOf { strFields := fields, media_details := some rest } := rfl
  cases ht : tweetDataOf { strFields := fields, media_details := some rest } with
  | error e =>
    simp [processTweet, processTweetAux, hdata.trans ht, ht]
  | ok d =>
    by_cases hm : d.has_media = "true"
    · cases hpi : pyInt d.tweet_id with
      | none =>
        simp [processTweet, processTweetAux, hdata.trans ht, ht, hm, hpi]
      | some tid =>
        simp only [processTweet, processTweetAux, hdata.trans ht, ht, hm, if_pos,
          hpi]
        rw [hmedia EMPTY_MEDIA_DICT m rest ty hty h1 h2]
    · simp [processTweet, processTweetAux, hdata.trans ht, ht, hm]

/-- C10 witness: a gif entry with an unclassifiable url changes nothing, at
the media-loop level and for a whole concrete record. -/
theorem c10_witness :
    processMedia EMPTY_MEDIA_DICT [gifEntry] = processMedia EMPTY_MEDIA_DICT [] ∧
    processTweet []
      { otherPropertiesMap :=
          some { strFields := badUrlFields, media_details := some [gifEntry] } } =
    processTweet []
      { otherPropertiesMap :=
          some { strFields := badUrlFields, media_details := some [] } } := by
  constructor
  · exact c10_unrecognized_type_ignored.1 EMPTY_MEDIA_DICT gifEntry [] "gif"
      (by rfl) (by decide) (by decide)
  · exact c10_unrecognized_type_ignored.2 [] badUrlFields gifEntry [] "gif"
      (by rfl) (by decide) (by decide)

end ParseScrapedTweets
